import Mathlib

/-!
Verification of the beamline script generator (`beamlines.py`).

The Python source is shallowly embedded: numeric values (energies, stage
coordinates, zone-plate calibration data) are modelled as rationals,
Python exceptions as an explicit error type, and the two text sinks
(the primary script and the scan-info file) as lists of structured
lines.  A `collect <filename>` line is represented by a structured
filename value rather than the rendered string: the filename templates
are injective on the fields we keep, so equality and inequality of
rendered filenames coincide with equality of the structured values at
every input used below.
-/

/-- Python exceptions raised by the embedded code. -/
inductive PyError where
  | valueError (msg : String)
  | zeroDivisionError
  | nameError
  | indexError
  | notImplementedError
  deriving DecidableEq, Repr

/-- Modelled from the spec: `utilities.position` (the `SamplePosition`
data model of §3) is a plain (x, y, z) triple; `utilities.py` is not
part of the sources, only its namedtuple interface is used. -/
structure position where
  x : ℚ
  y : ℚ
  z : ℚ
  deriving DecidableEq, Repr

/-- The `ZoneplatePoint` namedtuple: a known optic position at a known energy. -/
structure ZoneplatePoint where
  x : ℚ
  y : ℚ
  z : ℚ
  energy : ℚ
  deriving DecidableEq, Repr

/-- The state of a constructed `Zoneplate` (also used for `Detector`,
a trivial subclass): the first calibration point and the per-eV step. -/
structure Zoneplate where
  start : ZoneplatePoint
  step : position
  deriving DecidableEq, Repr

/-- `Detector` is a trivial subclass of `Zoneplate` with no new behaviour. -/
abbrev Detector := Zoneplate

/-- `Zoneplate.__init__`: requires exactly one of `z_step`, `end`;
with two points the step is `(end - start) / (end.energy - start.energy)`
per axis, and Python float division raises `ZeroDivisionError` when the
two calibration energies coincide. -/
def mkZoneplate (start : ZoneplatePoint) (z_step : Option ℚ) (end_ : Option ZoneplatePoint) :
    Except PyError Zoneplate :=
  match z_step, end_ with
  | none, none =>
    Except.error (PyError.valueError ("Either `step` or `end` is required."))
  | some _, some _ =>
    Except.error (PyError.valueError ("Passing both `step` or `end` is confusing."))
  | none, some e =>
    if e.energy - start.energy = 0 then
      Except.error PyError.zeroDivisionError
    else
      Except.ok
        { start := start
          step :=
            { x := (e.x - start.x) / (e.energy - start.energy)
              y := (e.y - start.y) / (e.energy - start.energy)
              z := (e.z - start.z) / (e.energy - start.energy) } }
  | some s, none =>
    Except.ok { start := start, step := { x := 0, y := 0, z := s } }

/-- `Zoneplate.position`: affine extrapolation from the start point. -/
def Zoneplate.position (zp : Zoneplate) (energy : ℚ) : position :=
  { x := zp.start.x + zp.step.x * (energy - zp.start.energy)
    y := zp.start.y + zp.step.y * (energy - zp.start.energy)
    z := zp.start.z + zp.step.z * (energy - zp.start.energy) }

/-- `Zoneplate.z_position` always raises `NotImplementedError`. -/
def Zoneplate.z_position (_zp : Zoneplate) (_energy : ℚ) : Except PyError ℚ :=
  Except.error PyError.notImplementedError

/-- `write_scaninfo_header`: the exact sequence of lines written to the
scan-info file before the filename list, one list element per `f.write`. -/
def write_scaninfo_header (abba_mode : Bool) (repetitions ref_repetitions : ℕ) :
    List String :=
  [ "VERSION 1\n"
  , "ENERGY 1\n"
  , "TOMO 0\n"
  , "MOSAIC 0\n"
  , "MULTIEXPOSURE 4\n"
  , "NREPEATSCAN   1\n"
  , "WAITNSECS   0\n"
  , "NEXPOSURES   " ++ toString repetitions ++ "\n"
  , "AVERAGEONTHEFLY   0\n"
  , "REFNEXPOSURES  " ++ toString ref_repetitions ++ "\n"
  , "REF4EVERYEXPOSURES   " ++ toString repetitions ++ "\n"
  , "REFABBA " ++ (if abba_mode then "1" else "0") ++ "\n"
  , "REFAVERAGEONTHEFLY 0\n"
  , "MOSAICUP   1\n"
  , "MOSAICDOWN   1\n"
  , "MOSAICLEFT   1\n"
  , "MOSAICRIGHT   1\n"
  , "MOSAICOVERLAP 0.20\n"
  , "MOSAICCENTRALTILE   1\n"
  , "FILES\n" ]

/-- Structured form of the filenames produced by `ref_template` and
`sam_template` in `ssrl6_xanes_script`. -/
inductive FName where
  | ref (name : String) (energy : ℚ) (ctr total : ℕ)
  | sam (name : String) (fov : ℕ) (energy : ℚ) (ctr total : ℕ)
  deriving DecidableEq, Repr

/-- One line of the primary script.  Comment payloads keep the rendered
text; `collect` lines keep the structured filename. -/
inductive Cmd where
  | comment (s : String)
  | sete (energy : ℚ)
  | moveto (axis : String) (v : ℚ)
  | wait (seconds : ℤ)
  | setexp (seconds : ℚ)
  | setbinning (binning : ℕ)
  | collect (f : FName)
  | collect8 (name iter : String) (energy : ℚ)
  deriving DecidableEq, Repr

/-- The arguments of one call to `ssrl6_xanes_script` (the spec's
`ScanParameters`); `energies` stands for `edge.all_energies()` and the
iteration identifiers are taken as strings. -/
structure ScanParams where
  energies : List ℚ
  zoneplate : Zoneplate
  positions : List position
  reference_position : position
  iterations : List String
  iteration_rest : ℤ
  frame_rest : ℤ
  binning : ℕ
  exposure : ℚ
  repetitions : ℕ
  ref_repetitions : ℕ
  abba_mode : Bool
  deriving DecidableEq, Repr

/-- Everything `ssrl6_xanes_script` produced: the primary script, the
filenames written to the scan-info stream (after its header), and the
exception it raised, if any. -/
structure RunResult where
  script : List Cmd
  files : List FName
  err : Option PyError
  deriving DecidableEq, Repr

/-- The three lines of `pos_template`. -/
def posCmds (p : position) : List Cmd :=
  [Cmd.moveto ("x") p.x, Cmd.moveto ("y") p.y, Cmd.moveto ("z") p.z]

/-- The reference filenames emitted at one energy step, in order. -/
def refNames (fs_name : String) (E : ℚ) (ref_repetitions : ℕ) : List FName :=
  (List.range ref_repetitions).map (fun rep => FName.ref fs_name E rep ref_repetitions)

/-- The sample filenames emitted at one sample position, in order. -/
def samNames (fs_name : String) (E : ℚ) (fov : ℕ) (repetitions : ℕ) : List FName :=
  (List.range repetitions).map (fun rep => FName.sam fs_name fov E rep repetitions)

/-- The `ref_s` block of `ssrl6_xanes_script`: reference move, the
optional `frame_rest` wait before or after the exposures depending on
`ref_first`, exposure settings and the reference `collect` lines. -/
def refBlock (frame_rest : ℤ) (ref_first : Bool) (reference_position : position)
    (exposure : ℚ) (binning : ℕ) (fs_name : String) (E : ℚ) (ref_repetitions : ℕ) :
    List Cmd :=
  [Cmd.comment (";;;; Move to reference position\n")]
    ++ posCmds reference_position
    ++ (if frame_rest ≠ 0 ∧ ref_first = true then [Cmd.wait frame_rest] else [])
    ++ [Cmd.comment (";;;; Collect reference frames\n"),
        Cmd.setexp exposure, Cmd.setbinning binning]
    ++ (refNames fs_name E ref_repetitions).map Cmd.collect
    ++ (if frame_rest ≠ 0 ∧ ref_first = false then [Cmd.wait frame_rest] else [])

/-- One sample-position block: the script lines written for one
`sam_pos` with field-of-view label `pos_idx`, paired with the filenames
written to the scan-info stream by the same loop body. -/
def samBlock (p : ScanParams) (fs_name : String) (E : ℚ) (sam_pos : position)
    (pos_idx : ℕ) : List Cmd × List FName :=
  ( [Cmd.comment (";;;; Move to sample position " ++ toString pos_idx ++ "\n")]
      ++ posCmds sam_pos
      ++ [Cmd.comment (";;;; Collect frames sample position " ++ toString pos_idx ++ "\n"),
          Cmd.setexp p.exposure, Cmd.setbinning p.binning]
      ++ (samNames fs_name E pos_idx p.repetitions).map Cmd.collect
  , samNames fs_name E pos_idx p.repetitions )

/-- The `for idx, sam_pos in enumerate(pos_list)` loop: `idx` counts the
traversal slot, `n` is `len(pos_list)`, and the field-of-view label is
`idx` when the reference goes first and `n - idx - 1` otherwise. -/
def samLoop (p : ScanParams) (fs_name : String) (E : ℚ) (ref_first : Bool) (n : ℕ) :
    ℕ → List position → List (List Cmd × List FName)
  | _, [] => []
  | idx, sam_pos :: rest =>
    samBlock p fs_name E sam_pos (if ref_first then idx else n - idx - 1)
      :: samLoop p fs_name E ref_first n (idx + 1) rest

/-- The fixed preamble of an energy step: zone-plate comment, `sete`
and the three zone-plate axis moves. -/
def stepPre (p : ScanParams) (E : ℚ) : List Cmd :=
  [Cmd.comment (";;;; set the MONO and the ZP\n"), Cmd.sete E,
   Cmd.moveto ("zpx") (p.zoneplate.position E).x,
   Cmd.moveto ("zpy") (p.zoneplate.position E).y,
   Cmd.moveto ("zpz") (p.zoneplate.position E).z]

/-- The traversal list of an energy step: `positions`, reversed on the
even ABBA steps. -/
def posList (p : ScanParams) (ref_first : Bool) : List position :=
  if ref_first then p.positions else p.positions.reverse

/-- The joined sample-loop script lines of one energy step. -/
def samJoin (p : ScanParams) (fs_name : String) (E : ℚ) (ref_first : Bool) : List Cmd :=
  ((samLoop p fs_name E ref_first (posList p ref_first).length 0 (posList p ref_first)).map
    Prod.fst).flatten

/-- The joined sample-loop scan-info filenames of one energy step. -/
def samJoinNames (p : ScanParams) (fs_name : String) (E : ℚ) (ref_first : Bool) :
    List FName :=
  ((samLoop p fs_name E ref_first (posList p ref_first).length 0 (posList p ref_first)).map
    Prod.snd).flatten

/-- One energy step of `ssrl6_xanes_script`: the script lines written
to `dest` and the filenames written to the scan-info stream.  The
reference block is written before the sample blocks when `ref_first`
holds and after them otherwise; the scan-info stream receives the
reference filenames first in either case, because the source writes
them while the `ref_s` string is being built. -/
def energyStep (p : ScanParams) (fs_name : String) (ref_first : Bool) (E : ℚ) :
    List Cmd × List FName :=
  ( stepPre p E
      ++ (if ref_first then
            refBlock p.frame_rest ref_first p.reference_position p.exposure p.binning
              fs_name E p.ref_repetitions
          else [])
      ++ samJoin p fs_name E ref_first
      ++ (if ref_first then []
          else
            refBlock p.frame_rest ref_first p.reference_position p.exposure p.binning
              fs_name E p.ref_repetitions)
  , refNames fs_name E p.ref_repetitions ++ samJoinNames p fs_name E ref_first )

/-- The energy steps of one iteration, kept one list entry per energy;
the `ref_first` flag is updated by `ref_first = not (ref_first and abba_mode)`. -/
def energySteps (p : ScanParams) (fs_name : String) (ref_first : Bool) :
    List ℚ → List (List Cmd × List FName)
  | [] => []
  | E :: rest =>
    energyStep p fs_name ref_first E
      :: energySteps p fs_name (!(ref_first && p.abba_mode)) rest

/-- The park-at-reference lines written after the last energy of an iteration. -/
def parkBlock (p : ScanParams) : List Cmd :=
  [Cmd.comment (";;;; Park at reference position\n")] ++ posCmds p.reference_position

/-- One iteration of `ssrl6_xanes_script`: the `ref_first` flag is reset
to `true`, the 2D-XANES banner is written, the energy steps run, and the
stage parks at the reference position. -/
def iterBody (p : ScanParams) (fs_name : String) : List Cmd × List FName :=
  ( [Cmd.comment (";; 2D XANES ;;\n")]
      ++ ((energySteps p fs_name true p.energies).map Prod.fst).flatten
      ++ parkBlock p
  , ((energySteps p fs_name true p.energies).map Prod.snd).flatten )

/-- The `for fs_name in iterations` loop. -/
def iterLoop (p : ScanParams) : List String → List Cmd × List FName
  | [] => ([], [])
  | fs_name :: rest =>
    let b := iterBody p fs_name
    let r := iterLoop p rest
    (b.1 ++ r.1, b.2 ++ r.2)

/-- `ssrl6_xanes_script`.  The `frame_rest`/`abba_mode` exclusion check
runs before anything is written.  The trailing `iteration_rest` check
sits after the iteration loop in the source, where `fs_name` already
equals `iterations[-1]`; with an empty `iterations` and a truthy
`iteration_rest` the name lookup itself fails (`NameError`). -/
def ssrl6_xanes_script (p : ScanParams) : RunResult :=
  if p.frame_rest ≠ 0 ∧ p.abba_mode = true then
    { script := []
      files := []
      err := some (PyError.valueError ("Cannot use `frame_rest` and `abba_mode` together.")) }
  else
    let body := iterLoop p p.iterations
    if p.iteration_rest ≠ 0 then
      match p.iterations.getLast? with
      | none => { script := body.1, files := body.2, err := some PyError.nameError }
      | some fs_name =>
        if some fs_name ≠ p.iterations.getLast? then
          { script := body.1 ++ [Cmd.wait p.iteration_rest], files := body.2, err := none }
        else
          { script := body.1, files := body.2, err := none }
    else
      { script := body.1, files := body.2, err := none }

/-- The `collect` filenames of a script, in order. -/
def collectNames (cmds : List Cmd) : List FName :=
  cmds.filterMap (fun c =>
    match c with
    | Cmd.collect f => some f
    | _ => none)

/-- True exactly on `wait` lines. -/
def isWait : Cmd → Bool
  | Cmd.wait _ => true
  | _ => false

/-- Normal form of one energy step's script lines: preamble, then the
reference block before the sample blocks when `ref_first` holds and
after them otherwise. -/
def stepShape (p : ScanParams) (fs_name : String) (E : ℚ) (ref_first : Bool) : List Cmd :=
  stepPre p E
    ++ (if ref_first then
          refBlock p.frame_rest ref_first p.reference_position p.exposure p.binning
              fs_name E p.ref_repetitions
            ++ samJoin p fs_name E ref_first
        else
          samJoin p fs_name E ref_first
            ++ refBlock p.frame_rest ref_first p.reference_position p.exposure p.binning
              fs_name E p.ref_repetitions)

/-- The `ref_first` flag before energy step `k`, starting from `b` at
step `0`, under `ref_first = not (ref_first and abba_mode)`. -/
def refFlag (abba_mode : Bool) (b : Bool) : ℕ → Bool
  | 0 => b
  | k + 1 => refFlag abba_mode (!(b && abba_mode)) k

/-- `numpy.arange(start, stop, step)` over the rationals:
`ceil((stop - start) / step)` evenly spaced values from `start`. -/
def arange (start stop step : ℚ) : List ℚ :=
  (List.range (⌈(stop - start) / step⌉).toNat).map (fun k => start + (k : ℚ) * step)

/-- The warm-up sweep of `sector8_xanes_script`: one `moveto energy`
line per value of `np.arange(starting_energy - 100, starting_energy, 2)`. -/
def sector8Warmup (starting_energy : ℚ) : List Cmd :=
  (arange (starting_energy - 100) starting_energy 2).map
    (fun energy => Cmd.moveto ("energy") energy)

/-- One index of the sample-position loop of `sector8_xanes_script`:
`sample_positions[idx]` and `names[idx]` raise `IndexError` past the end. -/
def sector8PosStep (sample_positions : List position) (names : List String)
    (iteration : String) (energy : ℚ) (idx : ℕ) : Except PyError (List Cmd) :=
  match sample_positions.get? idx, names.get? idx with
  | some pos, some name =>
    Except.ok
      [Cmd.moveto ("x") pos.x, Cmd.moveto ("y") pos.y, Cmd.moveto ("z") pos.z,
       Cmd.collect8 name iteration energy]
  | _, _ => Except.error PyError.indexError

/-- The body of the sample-position loop over a list of indexes. -/
def sector8PosLoop (sample_positions : List position) (names : List String)
    (iteration : String) (energy : ℚ) : List ℕ → Except PyError (List Cmd)
  | [] => Except.ok []
  | idx :: rest =>
    match sector8PosStep sample_positions names iteration energy idx with
    | Except.error e => Except.error e
    | Except.ok block =>
      match sector8PosLoop sample_positions names iteration energy rest with
      | Except.error e => Except.error e
      | Except.ok blocks => Except.ok (block ++ blocks)

/-- One energy of the main loop of `sector8_xanes_script`: energy,
zone-plate-z and detector-z moves, then the sample positions, backwards
on the reverse steps of ABBA mode. -/
def sector8EnergyStep (zoneplate detector : Zoneplate) (sample_positions : List position)
    (names : List String) (abba_mode : Bool) (iteration : String)
    (reverse_positions : Bool) (energy : ℚ) : Except PyError (List Cmd) :=
  let position_indexes :=
    if reverse_positions && abba_mode then (List.range sample_positions.length).reverse
    else List.range sample_positions.length
  match sector8PosLoop sample_positions names iteration energy position_indexes with
  | Except.error e => Except.error e
  | Except.ok blocks =>
    Except.ok
      ([Cmd.moveto ("energy") energy,
        Cmd.moveto ("zpz") (zoneplate.position energy).z,
        Cmd.moveto ("detz") (detector.position energy).z] ++ blocks)

/-- The main energy loop of one iteration; `reverse_positions` toggles
unconditionally after every energy. -/
def sector8EnergyLoop (zoneplate detector : Zoneplate) (sample_positions : List position)
    (names : List String) (abba_mode : Bool) (iteration : String)
    (reverse_positions : Bool) : List ℚ → Except PyError (List Cmd)
  | [] => Except.ok []
  | energy :: rest =>
    match sector8EnergyStep zoneplate detector sample_positions names abba_mode iteration
        reverse_positions energy with
    | Except.error e => Except.error e
    | Except.ok step =>
      match sector8EnergyLoop zoneplate detector sample_positions names abba_mode iteration
          (!reverse_positions) rest with
      | Except.error e => Except.error e
      | Except.ok rest2 => Except.ok (step ++ rest2)

/-- One iteration of `sector8_xanes_script`: the warm-up sweep below the
first target energy, then the main energy loop starting with
`reverse_positions = False`. -/
def sector8IterBody (zoneplate detector : Zoneplate) (sample_positions : List position)
    (names : List String) (abba_mode : Bool) (starting_energy : ℚ) (energies : List ℚ)
    (iteration : String) : Except PyError (List Cmd) :=
  match sector8EnergyLoop zoneplate detector sample_positions names abba_mode iteration
      false energies with
  | Except.error e => Except.error e
  | Except.ok main => Except.ok (sector8Warmup starting_energy ++ main)

/-- The `for iteration in iterations` loop of `sector8_xanes_script`. -/
def sector8IterLoop (zoneplate detector : Zoneplate) (sample_positions : List position)
    (names : List String) (abba_mode : Bool) (starting_energy : ℚ) (energies : List ℚ) :
    List String → Except PyError (List Cmd)
  | [] => Except.ok []
  | iteration :: rest =>
    match sector8IterBody zoneplate detector sample_positions names abba_mode
        starting_energy energies iteration with
    | Except.error e => Except.error e
    | Except.ok body =>
      match sector8IterLoop zoneplate detector sample_positions names abba_mode
          starting_energy energies rest with
      | Except.error e => Except.error e
      | Except.ok rest2 => Except.ok (body ++ rest2)

/-- `sector8_xanes_script`: binning and exposure header, then the
iterations; `energies[0]` on an empty energy list raises `IndexError`. -/
def sector8_xanes_script (zoneplate detector : Zoneplate) (sample_positions : List position)
    (names : List String) (iterations : List String) (binning : ℕ) (exposure : ℚ)
    (abba_mode : Bool) (energies : List ℚ) : Except PyError (List Cmd) :=
  match energies with
  | [] => Except.error PyError.indexError
  | starting_energy :: _ =>
    match sector8IterLoop zoneplate detector sample_positions names abba_mode
        starting_energy energies iterations with
    | Except.error e => Except.error e
    | Except.ok bodies =>
      Except.ok ([Cmd.setbinning binning, Cmd.setexp exposure] ++ bodies)

/-- A two-point calibrated zone plate used by the concrete runs below. -/
def zpTest : Zoneplate :=
  { start := { x := 0, y := 0, z := 0, energy := 0 }, step := { x := 0, y := 0, z := 1 } }

/-- Concrete input refuting the cross-artifact order invariant:
ABBA mode, two energies, one sample position, one frame each. -/
def pC1 : ScanParams :=
  { energies := [1, 2]
    zoneplate := zpTest
    positions := [{ x := 0, y := 0, z := 0 }]
    reference_position := { x := 5, y := 5, z := 0 }
    iterations := ["a"]
    iteration_rest := 0
    frame_rest := 0
    binning := 2
    exposure := 1 / 2
    repetitions := 1
    ref_repetitions := 1
    abba_mode := true }

/-- Concrete input on which the claimed inter-iteration wait never
appears: two iterations with a truthy `iteration_rest`. -/
def pC2 : ScanParams :=
  { energies := [1]
    zoneplate := zpTest
    positions := []
    reference_position := { x := 5, y := 5, z := 0 }
    iterations := ["a", "b"]
    iteration_rest := 5
    frame_rest := 0
    binning := 2
    exposure := 1 / 2
    repetitions := 1
    ref_repetitions := 1
    abba_mode := true }

/-- Concrete input for the ABBA alternation witness. -/
def pC4 : ScanParams :=
  { energies := [1, 2]
    zoneplate := zpTest
    positions := [{ x := 0, y := 0, z := 0 }, { x := 1, y := 1, z := 0 }]
    reference_position := { x := 5, y := 5, z := 0 }
    iterations := ["a"]
    iteration_rest := 0
    frame_rest := 0
    binning := 2
    exposure := 1 / 2
    repetitions := 2
    ref_repetitions := 1
    abba_mode := true }

/-- Concrete input for the `frame_rest` witness: `frame_rest` truthy,
ABBA mode off. -/
def pC10 : ScanParams :=
  { energies := [1, 2]
    zoneplate := zpTest
    positions := [{ x := 0, y := 0, z := 0 }]
    reference_position := { x := 5, y := 5, z := 0 }
    iterations := ["a"]
    iteration_rest := 0
    frame_rest := 3
    binning := 2
    exposure := 1 / 2
    repetitions := 1
    ref_repetitions := 1
    abba_mode := false }

/-- The zone plate obtained from the calibration points (0,0,0,0 eV)
and (2,4,6,2 eV). -/
def zpW : Zoneplate :=
  { start := { x := 0, y := 0, z := 0, energy := 0 }, step := { x := 1, y := 2, z := 3 } }

@[simp] lemma collectNames_nil : collectNames [] = [] := rfl

@[simp] lemma collectNames_cons_comment (s : String) (t : List Cmd) :
    collectNames (Cmd.comment s :: t) = collectNames t := rfl

@[simp] lemma collectNames_cons_sete (E : ℚ) (t : List Cmd) :
    collectNames (Cmd.sete E :: t) = collectNames t := rfl

@[simp] lemma collectNames_cons_moveto (a : String) (v : ℚ) (t : List Cmd) :
    collectNames (Cmd.moveto a v :: t) = collectNames t := rfl

@[simp] lemma collectNames_cons_wait (n : ℤ) (t : List Cmd) :
    collectNames (Cmd.wait n :: t) = collectNames t := rfl

@[simp] lemma collectNames_cons_setexp (e : ℚ) (t : List Cmd) :
    collectNames (Cmd.setexp e :: t) = collectNames t := rfl

@[simp] lemma collectNames_cons_setbinning (b : ℕ) (t : List Cmd) :
    collectNames (Cmd.setbinning b :: t) = collectNames t := rfl

@[simp] lemma collectNames_cons_collect (f : FName) (t : List Cmd) :
    collectNames (Cmd.collect f :: t) = f :: collectNames t := rfl

@[simp] lemma collectNames_append (a b : List Cmd) :
    collectNames (a ++ b) = collectNames a ++ collectNames b := by
  simp [collectNames]

@[simp] lemma collectNames_map_collect (l : List FName) :
    collectNames (l.map Cmd.collect) = l := by
  induction l with
  | nil => rfl
  | cons f t ih => simp [ih]

/-- Unfolding equation of `mkZoneplate` in the two-point case. -/
lemma mkZoneplate_two_point (start e : ZoneplatePoint) :
    mkZoneplate start none (some e)
      = if e.energy - start.energy = 0 then Except.error PyError.zeroDivisionError
        else Except.ok
          { start := start
            step :=
              { x := (e.x - start.x) / (e.energy - start.energy)
                y := (e.y - start.y) / (e.energy - start.energy)
                z := (e.z - start.z) / (e.energy - start.energy) } } := rfl

/-- Claim C6: a zone plate built from two calibration points with
distinct energies reproduces both points exactly: `position` at the
start energy is the start coordinates and `position` at the end energy
is the end coordinates. -/
theorem c6_two_point_calibration (start e : ZoneplatePoint) (zp : Zoneplate)
    (hne : e.energy ≠ start.energy)
    (h : mkZoneplate start none (some e) = Except.ok zp) :
    zp.position start.energy = { x := start.x, y := start.y, z := start.z } ∧
    zp.position e.energy = { x := e.x, y := e.y, z := e.z } := by
  have hd : e.energy - start.energy ≠ 0 := sub_ne_zero.mpr hne
  rw [mkZoneplate_two_point, if_neg hd] at h
  injection h with h
  subst h
  constructor
  · simp [Zoneplate.position]
  · simp only [Zoneplate.position, position.mk.injEq]
    refine ⟨?_, ?_, ?_⟩ <;> field_simp

/-- Witness for C6 at the calibration points (0,0,0,0 eV), (2,4,6,2 eV). -/
theorem c6_witness :
    zpW.position 0 = { x := 0, y := 0, z := 0 } ∧
    zpW.position 2 = { x := 2, y := 4, z := 6 } := by
  refine c6_two_point_calibration { x := 0, y := 0, z := 0, energy := 0 }
    { x := 2, y := 4, z := 6, energy := 2 } zpW (by norm_num) ?_
  rw [mkZoneplate_two_point, if_neg (by norm_num)]
  norm_num [zpW, Zoneplate.mk.injEq, position.mk.injEq]

/-- Counterexample to claim C7: supplying exactly one of `z_step`, `end`
can still raise — with `end.energy == start.energy` the step computation
divides by zero. -/
theorem c7_cex :
    mkZoneplate { x := 0, y := 0, z := 0, energy := 100 } none
        (some { x := 1, y := 1, z := 1, energy := 100 })
      = Except.error PyError.zeroDivisionError := by
  rw [mkZoneplate_two_point, if_pos (by norm_num)]

/-- Claim C7 as amended: both or neither of `z_step`/`end` is always a
construction-time `ConfigurationError` (a `ValueError` in the source);
supplying only `z_step` never raises, and supplying only `end` never
raises provided the two calibration energies differ. -/
theorem c7_amended (start e : ZoneplatePoint) (zs : ℚ) :
    mkZoneplate start none none
      = Except.error (PyError.valueError ("Either `step` or `end` is required.")) ∧
    mkZoneplate start (some zs) (some e)
      = Except.error (PyError.valueError ("Passing both `step` or `end` is confusing.")) ∧
    mkZoneplate start (some zs) none
      = Except.ok { start := start, step := { x := 0, y := 0, z := zs } } ∧
    (e.energy ≠ start.energy →
      ∃ zp, mkZoneplate start none (some e) = Except.ok zp) := by
  refine ⟨rfl, rfl, rfl, fun hne => ?_⟩
  exact ⟨_, by rw [mkZoneplate_two_point, if_neg (sub_ne_zero.mpr hne)]⟩

/-- Witness for C7 as amended: only `end` with distinct energies succeeds. -/
theorem c7_witness :
    ∃ zp, mkZoneplate { x := 0, y := 0, z := 0, energy := 0 } none
        (some { x := 2, y := 4, z := 6, energy := 2 }) = Except.ok zp :=
  (c7_amended { x := 0, y := 0, z := 0, energy := 0 }
    { x := 2, y := 4, z := 6, energy := 2 } 3).2.2.2 (by norm_num)

/-- Claim C8: a truthy `frame_rest` together with `abba_mode` makes
`ssrl6_xanes_script` raise the `ValueError` at once, with nothing
written to the primary script and nothing written to scan-info. -/
theorem c8_mutual_exclusion (p : ScanParams)
    (hfr : p.frame_rest ≠ 0) (hab : p.abba_mode = true) :
    ssrl6_xanes_script p =
      { script := []
        files := []
        err := some (PyError.valueError ("Cannot use `frame_rest` and `abba_mode` together.")) } := by
  unfold ssrl6_xanes_script
  rw [if_pos ⟨hfr, hab⟩]

/-- Witness for C8 at a concrete parameter set. -/
theorem c8_witness :
    ssrl6_xanes_script { pC1 with frame_rest := 1 } =
      { script := []
        files := []
        err := some (PyError.valueError ("Cannot use `frame_rest` and `abba_mode` together.")) } :=
  c8_mutual_exclusion { pC1 with frame_rest := 1 } (by decide) rfl

/-- Counterexample to claim C1: with `abba_mode` on, two energies and
one sample position, the scan-info stream lists the second energy's
reference frame before its sample frame while the primary script
collects them in the opposite order. -/
theorem c1_cex :
    collectNames (ssrl6_xanes_script pC1).script ≠ (ssrl6_xanes_script pC1).files := by
  decide

/-- Claim C2: on a run with two iterations and a truthy
`iteration_rest`, the script contains no `wait` line at all — the
source's inter-iteration wait check sits after the loop and compares the
final iteration identifier with itself. -/
theorem c2_no_iteration_wait :
    pC2.iteration_rest = 5 ∧ pC2.iterations = ["a", "b"] ∧
    (ssrl6_xanes_script pC2).err = none ∧
    (ssrl6_xanes_script pC2).script.all (fun c => !isWait c) = true := by
  decide

/-- The `collect` lines of the reference block are exactly the filenames
the block's construction wrote to scan-info. -/
lemma collectNames_refBlock (fr : ℤ) (rf : Bool) (rp : position) (ex : ℚ) (b : ℕ)
    (nm : String) (E : ℚ) (rr : ℕ) :
    collectNames (refBlock fr rf rp ex b nm E rr) = refNames nm E rr := by
  unfold refBlock posCmds
  split_ifs <;> simp

/-- The `collect` lines of a sample block are exactly its scan-info filenames. -/
lemma collectNames_samBlock (p : ScanParams) (nm : String) (E : ℚ) (sp : position)
    (i : ℕ) :
    collectNames (samBlock p nm E sp i).1 = (samBlock p nm E sp i).2 := by
  unfold samBlock posCmds
  simp

/-- The `collect` lines of the whole sample loop are its scan-info filenames. -/
lemma collectNames_samLoop (p : ScanParams) (nm : String) (E : ℚ) (rf : Bool) (n : ℕ) :
    ∀ (l : List position) (idx : ℕ),
      collectNames (((samLoop p nm E rf n idx l).map Prod.fst).flatten)
        = ((samLoop p nm E rf n idx l).map Prod.snd).flatten := by
  intro l
  induction l with
  | nil => intro idx; rfl
  | cons sp rest ih =>
    intro idx
    simp [samLoop, collectNames_samBlock, ih]

/-- On a reference-first energy step the `collect` lines of the script
match the scan-info filenames, in order. -/
lemma collectNames_energyStep_true (p : ScanParams) (nm : String) (E : ℚ) :
    collectNames (energyStep p nm true E).1 = (energyStep p nm true E).2 := by
  unfold energyStep stepPre samJoin samJoinNames
  simp [collectNames_refBlock, collectNames_samLoop]

/-- With `abba_mode` off, every energy step keeps `ref_first = true` and
the per-iteration `collect` lines match the scan-info filenames. -/
lemma collectNames_energySteps_false (p : ScanParams) (nm : String)
    (hab : p.abba_mode = false) :
    ∀ Es : List ℚ,
      collectNames (((energySteps p nm true Es).map Prod.fst).flatten)
        = ((energySteps p nm true Es).map Prod.snd).flatten := by
  intro Es
  induction Es with
  | nil => rfl
  | cons E rest ih =>
    show collectNames (((energyStep p nm true E
        :: energySteps p nm (!(true && p.abba_mode)) rest).map Prod.fst).flatten)
      = ((energyStep p nm true E
        :: energySteps p nm (!(true && p.abba_mode)) rest).map Prod.snd).flatten
    rw [hab]
    simp only [Bool.and_false, Bool.not_false, List.map_cons, List.flatten_cons,
      collectNames_append]
    rw [collectNames_energyStep_true, ih]

/-- With `abba_mode` off, one iteration's `collect` lines match its
scan-info filenames. -/
lemma collectNames_iterBody_false (p : ScanParams) (nm : String)
    (hab : p.abba_mode = false) :
    collectNames (iterBody p nm).1 = (iterBody p nm).2 := by
  unfold iterBody parkBlock posCmds
  simp [collectNames_energySteps_false p nm hab]

/-- With `abba_mode` off, the whole iteration loop's `collect` lines
match its scan-info filenames. -/
lemma collectNames_iterLoop_false (p : ScanParams) (hab : p.abba_mode = false) :
    ∀ its : List String,
      collectNames (iterLoop p its).1 = (iterLoop p its).2 := by
  intro its
  induction its with
  | nil => rfl
  | cons nm rest ih =>
    simp [iterLoop, collectNames_iterBody_false p nm hab, ih]

/-- When the argument check passes, the run's script and scan-info
filename streams are those of the iteration loop: the trailing
`iteration_rest` comparison `fs_name != iterations[-1]` never appends a
wait, whatever else happens. -/
lemma ssrl6_run_eq (p : ScanParams) (h : ¬(p.frame_rest ≠ 0 ∧ p.abba_mode = true)) :
    (ssrl6_xanes_script p).script = (iterLoop p p.iterations).1 ∧
    (ssrl6_xanes_script p).files = (iterLoop p p.iterations).2 := by
  simp only [ssrl6_xanes_script]
  rw [if_neg h]
  split
  · split
    · exact ⟨rfl, rfl⟩
    · next fs_name heq =>
      rw [if_neg (by simp [heq])]
      exact ⟨rfl, rfl⟩
  · exact ⟨rfl, rfl⟩

/-- Claim C1 as amended: whenever `abba_mode` is falsy the sequence of
filenames written to the scan-info stream equals, element by element and
in the same order, the filenames of the `collect` lines of the primary
script, for all energies, sample positions, repetitions and iterations
(under ABBA mode the two sequences can disagree in order; see the
counterexample). -/
theorem c1_scaninfo_order (p : ScanParams) :
    collectNames (ssrl6_xanes_script { p with abba_mode := false }).script
      = (ssrl6_xanes_script { p with abba_mode := false }).files := by
  obtain ⟨h1, h2⟩ := ssrl6_run_eq { p with abba_mode := false } (by simp)
  rw [h1, h2]
  exact collectNames_iterLoop_false { p with abba_mode := false } rfl _

/-- With `abba_mode` off, the `ref_first` flag stays true at every step. -/
lemma refFlag_false_true (k : ℕ) : refFlag false true k = true := by
  induction k with
  | zero => rfl
  | succ k ih => simpa [refFlag] using ih

/-- With `abba_mode` on, the flag at step `k` from `b` is `b` on even
steps and `!b` on odd steps. -/
lemma refFlag_true_beq (k : ℕ) : ∀ b : Bool, refFlag true b k = (b == decide (k % 2 = 0)) := by
  induction k with
  | zero => intro b; cases b <;> rfl
  | succ k ih =>
    intro b
    have hstep : refFlag true b (k + 1) = refFlag true (!b) k := by
      cases b <;> rfl
    rw [hstep, ih (!b)]
    rcases Nat.mod_two_eq_zero_or_one k with h | h
    · have h2 : (k + 1) % 2 = 1 := by omega
      cases b <;> simp [h, h2]
    · have h2 : (k + 1) % 2 = 0 := by omega
      cases b <;> simp [h, h2]

/-- Closed form of the `ref_first` flag starting from `true`: always
true without ABBA mode, true exactly on even steps with it. -/
lemma refFlag_closed (abba_mode : Bool) (k : ℕ) :
    refFlag abba_mode true k = (!abba_mode || decide (k % 2 = 0)) := by
  cases abba_mode
  · simp [refFlag_false_true]
  · rw [refFlag_true_beq]
    simp

/-- The `k`-th energy step of an iteration is the step function applied
at the `k`-th energy with the flag `refFlag abba_mode b k`. -/
lemma energySteps_get (p : ScanParams) (nm : String) :
    ∀ (Es : List ℚ) (b : Bool) (k : ℕ),
      (energySteps p nm b Es).get? k
        = (Es.get? k).map (fun E => energyStep p nm (refFlag p.abba_mode b k) E) := by
  intro Es
  induction Es with
  | nil => intro b k; simp [energySteps]
  | cons E rest ih =>
    intro b k
    cases k with
    | zero => simp [energySteps, refFlag]
    | succ k =>
      show (energySteps p nm (!(b && p.abba_mode)) rest).get? k = _
      rw [ih (!(b && p.abba_mode)) k]
      rfl

/-- An energy step's script lines in before/after normal form. -/
lemma energyStep_fst_shape (p : ScanParams) (nm : String) (E : ℚ) (rf : Bool) :
    (energyStep p nm rf E).1 = stepShape p nm E rf := by
  cases rf <;> simp [energyStep, stepShape]

/-- Claim C4: within every iteration the `k`-th energy step places the
reference block before the sample blocks exactly when
`!abba_mode || k even` — so with ABBA mode the placement alternates
strictly (before, after, before, ...) restarting at "before" for every
iteration (the steps are generated with the flag reset to `true`), and
without ABBA mode the reference block always comes first. -/
theorem c4_abba_alternation (p : ScanParams) (nm : String) (k : ℕ) (E : ℚ)
    (hk : p.energies.get? k = some E) :
    ((energySteps p nm true p.energies).get? k).map Prod.fst
      = some (stepShape p nm E (!p.abba_mode || decide (k % 2 = 0))) := by
  rw [energySteps_get p nm p.energies true k, hk]
  simp [refFlag_closed, energyStep_fst_shape]

/-- Witness for C4: the second energy step of the concrete ABBA run
places the reference block after the sample blocks. -/
theorem c4_witness :
    ((energySteps pC4 "a" true pC4.energies).get? 1).map Prod.fst
      = some (stepShape pC4 "a" 2 (!pC4.abba_mode || decide (1 % 2 = 0))) :=
  c4_abba_alternation pC4 "a" 1 2 rfl

/-- Claim C10: with a truthy `frame_rest` (hence `abba_mode` falsy by
the C8 exclusion) the `ref_first` flag is true at every energy step of
every iteration, every step places the reference block first, and the
reference block carries its `wait frame_rest` before the reference
exposures with no wait after them — the post-exposure wait branch is
unreachable. -/
theorem c10_frame_rest_before_ref (p : ScanParams) (nm : String) (k : ℕ) (E : ℚ)
    (hfr : p.frame_rest ≠ 0) (hab : p.abba_mode = false)
    (hk : p.energies.get? k = some E) :
    refFlag p.abba_mode true k = true ∧
    ((energySteps p nm true p.energies).get? k).map Prod.fst
      = some (stepShape p nm E true) ∧
    refBlock p.frame_rest true p.reference_position p.exposure p.binning nm E
        p.ref_repetitions
      = [Cmd.comment (";;;; Move to reference position\n")]
          ++ posCmds p.reference_position
          ++ [Cmd.wait p.frame_rest]
          ++ [Cmd.comment (";;;; Collect reference frames\n"),
              Cmd.setexp p.exposure, Cmd.setbinning p.binning]
          ++ (refNames nm E p.ref_repetitions).map Cmd.collect := by
  have hflag : refFlag p.abba_mode true k = true := by
    rw [hab]; exact refFlag_false_true k
  refine ⟨hflag, ?_, ?_⟩
  · rw [energySteps_get p nm p.energies true k, hk]
    simp [hflag, energyStep_fst_shape]
  · unfold refBlock
    rw [if_pos ⟨hfr, rfl⟩, if_neg (by simp)]
    simp

/-- Witness for C10 at the concrete `frame_rest` run. -/
theorem c10_witness :
    refFlag pC10.abba_mode true 0 = true ∧
    ((energySteps pC10 "a" true pC10.energies).get? 0).map Prod.fst
      = some (stepShape pC10 "a" 1 true) ∧
    refBlock pC10.frame_rest true pC10.reference_position pC10.exposure pC10.binning
        "a" 1 pC10.ref_repetitions
      = [Cmd.comment (";;;; Move to reference position\n")]
          ++ posCmds pC10.reference_position
          ++ [Cmd.wait pC10.frame_rest]
          ++ [Cmd.comment (";;;; Collect reference frames\n"),
              Cmd.setexp pC10.exposure, Cmd.setbinning pC10.binning]
          ++ (refNames "a" 1 pC10.ref_repetitions).map Cmd.collect :=
  c10_frame_rest_before_ref pC10 "a" 0 1 (by decide) rfl rfl

/-- The enumerate-style sample loop splits over list append, with the
slot counter advanced by the length of the first part. -/
lemma samLoop_append (p : ScanParams) (nm : String) (E : ℚ) (rf : Bool) (n : ℕ) :
    ∀ (a b : List position) (j : ℕ),
      samLoop p nm E rf n j (a ++ b)
        = samLoop p nm E rf n j a ++ samLoop p nm E rf n (j + a.length) b := by
  intro a
  induction a with
  | nil => intro b j; simp [samLoop]
  | cons sp t ih =>
    intro b j
    have e : j + 1 + t.length = j + (t.length + 1) := by omega
    simp only [List.cons_append, samLoop, List.append_eq, ih, List.length_cons, e]

/-- Traversing the reverse of `t` with the backward labelling starting
at slot `j` yields the reverse of the forward traversal of `t` whose
labels start at `n - j - len t`. -/
lemma samLoop_rev_aux (p : ScanParams) (nm : String) (E : ℚ) (n : ℕ) :
    ∀ (t : List position) (j : ℕ), j + t.length ≤ n →
      samLoop p nm E false n j t.reverse
        = (samLoop p nm E true n (n - j - t.length) t).reverse := by
  intro t
  induction t with
  | nil => intro j h; simp [samLoop]
  | cons sp t ih =>
    intro j h
    have hle : j + t.length + 1 ≤ n := by
      simpa [Nat.add_assoc] using h
    rw [List.reverse_cons, samLoop_append, ih j (by omega)]
    have e1 : n - j - (sp :: t).length = n - j - t.length - 1 := by
      simp only [List.length_cons]
      omega
    have e2 : n - (j + t.reverse.length) - 1 = n - j - t.length - 1 := by
      simp only [List.length_reverse]
      omega
    have e3 : n - j - t.length - 1 + 1 = n - j - t.length := by omega
    rw [e1]
    show (samLoop p nm E true n (n - j - t.length) t).reverse
        ++ (samBlock p nm E sp (n - (j + t.reverse.length) - 1)
            :: samLoop p nm E false n (j + t.reverse.length + 1) [])
      = (samBlock p nm E sp (n - j - t.length - 1)
          :: samLoop p nm E true n (n - j - t.length - 1 + 1) t).reverse
    rw [e2, e3, List.reverse_cons]
    rfl

/-- Claim C5: reversing the traversal (the `ref_first = False` steps of
ABBA mode) emits exactly the same per-position blocks — same move
targets, same field-of-view labels in comments and filenames — in
reverse order; each physical position keeps the field-of-view index of
its place in the original `positions` list. -/
theorem c5_reverse_keeps_fov (p : ScanParams) (nm : String) (E : ℚ)
    (ps : List position) :
    samLoop p nm E false ps.reverse.length 0 ps.reverse
      = (samLoop p nm E true ps.length 0 ps).reverse := by
  rw [List.length_reverse]
  have h := samLoop_rev_aux p nm E ps.length ps 0 (by omega)
  simpa using h

/-- The warm-up `arange` below `e0` has exactly 50 entries
`e0 - 100 + 2k`, `k = 0, ..., 49`. -/
lemma arange_warmup (e0 : ℚ) :
    arange (e0 - 100) e0 2
      = (List.range 50).map (fun k : ℕ => e0 - 100 + 2 * (k : ℚ)) := by
  unfold arange
  have h1 : e0 - (e0 - 100) = 100 := by ring
  rw [h1]
  have h2 : (⌈((100 : ℚ)) / 2⌉) = 50 := by norm_num
  rw [h2]
  show (List.range 50).map (fun k : ℕ => e0 - 100 + (k : ℚ) * 2) = _
  refine List.map_congr_left ?_
  intro a _
  ring

/-- Claim C9: every iteration of `sector8_xanes_script` starts with the
warm-up sweep — exactly 50 `moveto energy` lines at
`starting_energy - 100, starting_energy - 98, ..., starting_energy - 2`,
each strictly below the first target energy, and nothing but energy
moves — placed before the main energy loop's output. -/
theorem c9_warmup_sweep (zoneplate detector : Zoneplate) (sample_positions : List position)
    (names : List String) (abba_mode : Bool) (e0 : ℚ) (energies : List ℚ)
    (iteration : String) :
    sector8Warmup e0
        = (List.range 50).map (fun k : ℕ => Cmd.moveto ("energy") (e0 - 100 + 2 * (k : ℚ))) ∧
    (sector8Warmup e0).all
        (fun c => match c with
          | Cmd.moveto ax v => ax == "energy" && decide (v < e0)
          | _ => false) = true ∧
    sector8IterBody zoneplate detector sample_positions names abba_mode e0 energies
        iteration
      = Except.map (fun main => sector8Warmup e0 ++ main)
          (sector8EnergyLoop zoneplate detector sample_positions names abba_mode
            iteration false energies) := by
  have h3 : sector8Warmup e0
      = (List.range 50).map (fun k : ℕ => Cmd.moveto ("energy") (e0 - 100 + 2 * (k : ℚ))) := by
    unfold sector8Warmup
    rw [arange_warmup, List.map_map]
    rfl
  refine ⟨h3, ?_, ?_⟩
  · rw [h3, List.all_eq_true]
    intro c hc
    simp only [List.mem_map, List.mem_range] at hc
    obtain ⟨k, hk, rfl⟩ := hc
    have hk50 : (k : ℚ) < 50 := by exact_mod_cast hk
    have hlt : e0 - 100 + 2 * (k : ℚ) < e0 := by linarith
    simpa using hlt
  · unfold sector8IterBody
    cases h : sector8EnergyLoop zoneplate detector sample_positions names abba_mode
        iteration false energies <;> simp [Except.map]

/-- A string starting with a character other than F, whatever is
appended to it, is never the FILES marker line. -/
lemma append2_ne_FILES (s x y : String) (c : Char) (cs : List Char)
    (hs : s.data = c :: cs) (hc : c ≠ 'F') : (s ++ x) ++ y ≠ "FILES\n" := by
  intro h
  have hd := congrArg String.data h
  rw [String.data_append, String.data_append, hs] at hd
  rw [show ("FILES\n").data = ['F', 'I', 'L', 'E', 'S', '\n'] from rfl] at hd
  simp only [List.cons_append, List.cons.injEq] at hd
  exact hc hd.1

/-- Counterexample to claim C3: the 19th header line (index 18) is
`MOSAICCENTRALTILE`, not the `FILES` marker — the header has 19 key
lines, not 18, before the marker at index 19. -/
theorem c3_cex :
    (write_scaninfo_header true 5 10).get? 18 ≠ some ("FILES\n") ∧
    (write_scaninfo_header true 5 10).get? 19 = some ("FILES\n") := by
  decide

/-- Claim C3 as amended: `write_scaninfo_header` writes exactly 19
header lines (the claimed keys, with MOSAICUP/DOWN/LEFT/RIGHT as four
separate lines) followed by the literal `FILES` marker as the 20th and
last line, the marker appearing nowhere among the 19 header lines; the
REFABBA line is `REFABBA 1` iff `abba_mode` is truthy, else `REFABBA 0`. -/
theorem c3_header_lines (abba_mode : Bool) (r rr : ℕ) :
    (write_scaninfo_header abba_mode r rr).length = 20 ∧
    (write_scaninfo_header abba_mode r rr).get? 19 = some ("FILES\n") ∧
    (∀ s ∈ (write_scaninfo_header abba_mode r rr).take 19, s ≠ "FILES\n") ∧
    (abba_mode = true →
      (write_scaninfo_header abba_mode r rr).get? 11 = some ("REFABBA 1\n")) ∧
    (abba_mode = false →
      (write_scaninfo_header abba_mode r rr).get? 11 = some ("REFABBA 0\n")) := by
  refine ⟨rfl, rfl, ?_, fun h => by subst h; rfl, fun h => by subst h; rfl⟩
  intro s hs
  simp only [write_scaninfo_header, List.take, List.mem_cons, List.not_mem_nil,
    or_false] at hs
  rcases hs with rfl | rfl | rfl | rfl | rfl | rfl | rfl | rfl | rfl | rfl | rfl
    | rfl | rfl | rfl | rfl | rfl | rfl | rfl | rfl
  · decide
  · decide
  · decide
  · decide
  · decide
  · decide
  · decide
  · exact append2_ne_FILES ("NEXPOSURES   ") _ _ 'N' _ rfl (by decide)
  · decide
  · exact append2_ne_FILES ("REFNEXPOSURES  ") _ _ 'R' _ rfl (by decide)
  · exact append2_ne_FILES ("REF4EVERYEXPOSURES   ") _ _ 'R' _ rfl (by decide)
  · exact append2_ne_FILES ("REFABBA ") _ _ 'R' _ rfl (by decide)
  · decide
  · decide
  · decide
  · decide
  · decide
  · decide
  · decide

/-- Witness for C3 as amended, at `abba_mode = true`, 5 repetitions,
10 reference repetitions. -/
theorem c3_witness :
    ("MOSAICUP   1\n" : String) ≠ "FILES\n" ∧
    (write_scaninfo_header true 5 10).get? 11 = some ("REFABBA 1\n") :=
  ⟨(c3_header_lines true 5 10).2.2.1 _ (by decide),
   (c3_header_lines true 5 10).2.2.2.1 rfl⟩
